import Mathlib

/-!
Shallow embedding of `src/lib/itunes.js` (itunes.js Node API v2.1.0).

The module exports eleven async operations, each of which builds an
AppleScript command string (or invokes a script file), hands it to the
`node-osascript` bridge, and settles a JS promise from the bridge's
callback.  We embed:

* JS values (`JSVal`) as far as the code observes them: `typeof`,
  truthiness, strict equality against string literals, numeric indexing
  (`meta[0]`), property access (`error.message`), and template-string
  interpolation (`String(v)`).
* each operation's command construction as a pure function producing
  either a submitted command string or a rejection message (`Action`);
* each bridge callback as a pure function from the callback arguments
  `(error, reply)` to the list of `resolve`/`reject` calls it performs,
  in order (`List (Settle α)`); the promise outcome is the first such
  call (`settle`), or `pending` when the callback never settles.
-/

namespace Itunes

/-- Model of the JavaScript values this code inspects: `undefined`, `null`,
booleans, numbers, strings, arrays and plain objects. -/
inductive JSVal where
  | undef
  | null
  | bool (b : Bool)
  | num (n : Int)
  | str (s : String)
  | arr (xs : List JSVal)
  | obj (fields : List (String × JSVal))

/-- JavaScript `typeof` operator.  Note `typeof null` is `"object"`, and
`typeof` never returns the string `"null"`. -/
def typeof : JSVal → String
  | .undef => "undefined"
  | .null => "object"
  | .bool _ => "boolean"
  | .num _ => "number"
  | .str _ => "string"
  | .arr _ => "object"
  | .obj _ => "object"

/-- JavaScript truthiness of a value, as used by `if (err)` tests. -/
def truthy : JSVal → Bool
  | .undef => false
  | .null => false
  | .bool b => b
  | .num n => n != 0
  | .str s => s ≠ ""
  | .arr _ => true
  | .obj _ => true

/-- Strict equality (`===`) of a JS value against a string literal. -/
def isStr : JSVal → String → Bool
  | .str t, s => t == s
  | _, _ => false

mutual

/-- JavaScript string conversion `String(v)`, as performed by template-string
interpolation: arrays join their elements with `","`. -/
def jsToStr : JSVal → String
  | .undef => "undefined"
  | .null => "null"
  | .bool b => cond b "true" "false"
  | .num n => toString n
  | .str s => s
  | .obj _ => "[object Object]"
  | .arr xs => jsListToStr xs

/-- Inside an array-to-string conversion, `null` and `undefined` elements
become the empty string. -/
def jsElemToStr : JSVal → String
  | .undef => ""
  | .null => ""
  | v => jsToStr v

/-- Join array elements with `","`, as `Array.prototype.toString` does. -/
def jsListToStr : List JSVal → String
  | [] => ""
  | [v] => jsElemToStr v
  | v :: rest => jsElemToStr v ++ "," ++ jsListToStr rest

end

/-- JavaScript element access `v[i]` for a numeric index: throws a
`TypeError` on `null`/`undefined`, yields the element (or `undefined`
out of bounds) on arrays, a one-character string on strings, a looked-up
property on objects, and `undefined` on other primitives. -/
def jsIndex (v : JSVal) (i : Nat) : Except String JSVal :=
  match v with
  | .undef => .error "TypeError: cannot read properties of undefined"
  | .null => .error "TypeError: cannot read properties of null"
  | .arr xs => .ok (xs.getD i .undef)
  | .str s =>
      .ok (match s.toList.get? i with
           | some c => .str (String.mk [c])
           | none => .undef)
  | .obj fs => .ok ((fs.lookup (toString i)).getD .undef)
  | _ => .ok (.undef)

/-- JavaScript property access `e.message` on a truthy value (the only
values this code reads `.message` from are truthy bridge errors, so the
`null`/`undefined` `TypeError` case is unreachable here). -/
def jsMessage : JSVal → JSVal
  | .obj fs => (fs.lookup "message").getD .undef
  | _ => (.undef)

/-- One `resolve`/`reject` call performed by a promise executor or a
bridge callback:  `res v` is `resolve(v)`, `rej e` is `reject(e)`. -/
inductive Settle (α : Type) where
  | res (v : α)
  | rej (e : JSVal)

/-- Final state of a JS promise. -/
inductive Outcome (α : Type) where
  | resolved (v : α)
  | rejected (e : JSVal)
  | pending

/-- JS promise semantics: the first `resolve`/`reject` call settles the
promise and every later call is ignored; with no call the promise stays
pending forever. -/
def settle {α : Type} : List (Settle α) → Outcome α
  | [] => .pending
  | .res v :: _ => .resolved v
  | .rej e :: _ => .rejected e

/-- A settled (non-pending) outcome. -/
def isSettled {α : Type} : Outcome α → Bool
  | .pending => false
  | _ => true

/-- A rejected outcome. -/
def isRejection {α : Type} : Outcome α → Bool
  | .rejected _ => true
  | _ => false

/-- The value is exactly `undefined`. -/
def isUndef : JSVal → Bool
  | .undef => true
  | _ => false

/-- The value is exactly `null`. -/
def isNull : JSVal → Bool
  | .null => true
  | _ => false

/-- Target application name: `macos-version.is('>=10.15') ? 'Music' : 'iTunes'`,
resolved once at module load. -/
def itomOf (isCatalinaOrLater : Bool) : String :=
  if isCatalinaOrLater then "Music" else "iTunes"

/-- Result of running the synchronous part of an operation: either a
command string submitted to the bridge, or an immediate rejection message
(no bridge contact). -/
inductive Action where
  | submit (cmd : String)
  | reject (msg : String)

/-- The action is a bridge submission. -/
def isSubmit : Action → Bool
  | .submit _ => true
  | .reject _ => false

/-- Callback of `playPause`, `gotoPrevious` and `gotoNext`:
`() => resolve()` — resolves unconditionally, ignoring the bridge reply. -/
def fireAckCalls : List (Settle Unit) := [Settle.res ()]

/-- Promise outcome of the fire-and-acknowledge operations. -/
def fireAckOutcome : Outcome Unit := settle fireAckCalls

/-- Command of `playPause`. -/
def playPauseCmd (itom : String) : String :=
  "tell application \"" ++ itom ++ "\" to playpause"

/-- Command of `gotoPrevious`. -/
def gotoPreviousCmd (itom : String) : String :=
  "tell application \"" ++ itom ++ "\" to previous track"

/-- Command of `gotoNext`. -/
def gotoNextCmd (itom : String) : String :=
  "tell application \"" ++ itom ++ "\" to next track"

/-- Synchronous part of `get(name, isVerbose)`:
`isValidKey` is `name === 'name' || name === 'artist' || name === 'album'`;
when `typeof name === 'string' && isValidKey` the command is submitted,
otherwise the promise is rejected with the invalid-input message.
(`isVerbose` only controls `console.log` output and affects nothing
modelled here.) -/
def get (itom : String) (name : JSVal) : Action :=
  let isValidKey := isStr name "name" || isStr name "artist" || isStr name "album"
  if typeof name == "string" && isValidKey then
    Action.submit ("tell application \"" ++ itom ++ "\" to get the "
      ++ jsToStr name ++ " of the current track")
  else
    Action.reject ("[" ++ itom ++ "] [Error] Invalid input.")

/-- Bridge callback of `get`: `(error, output) => resolve(output, error)`.
A JS `resolve` takes a single value, so `error` is discarded and the
promise always resolves with `output`. -/
def getExecCalls (error output : JSVal) : List (Settle JSVal) :=
  [Settle.res output]

/-- Promise outcome of `get` after submission. -/
def getExecOutcome (error output : JSVal) : Outcome JSVal :=
  settle (getExecCalls error output)

/-- The fixed-shape track-metadata record built by `getMetadata`. -/
structure TrackMetadata where
  name : JSVal
  artist : JSVal
  album : JSVal
  year : JSVal
  albumArtist : JSVal
  bpm : JSVal
  composer : JSVal
  genre : JSVal
  length : JSVal
  progress : JSVal
  trackNumber : JSVal

/-- Body of the `try` block of `getMetadata`'s callback: read
`meta[0] … meta[10]` (the first throwing access aborts the block) and
assemble the record positionally. -/
def buildMetadata (meta : JSVal) : Except String TrackMetadata := do
  let v0 ← jsIndex meta 0
  let v1 ← jsIndex meta 1
  let v2 ← jsIndex meta 2
  let v3 ← jsIndex meta 3
  let v4 ← jsIndex meta 4
  let v5 ← jsIndex meta 5
  let v6 ← jsIndex meta 6
  let v7 ← jsIndex meta 7
  let v8 ← jsIndex meta 8
  let v9 ← jsIndex meta 9
  let v10 ← jsIndex meta 10
  pure ⟨v0, v1, v2, v3, v4, v5, v6, v7, v8, v9, v10⟩

/-- Bridge callback of `getMetadata`, in source order:
`if (err) reject(err)` (no early return), then the `try` block whose body
runs only under `typeof meta !== 'undefined' && typeof meta !== 'null'`
(the second conjunct is vacuous: `typeof` never yields `"null"`); inside,
a successful build resolves the record, and a thrown indexing error is
caught and rejected as `'No song is currently playing'`.  When `meta` is
`undefined` and `err` is falsy, the callback performs no settle call. -/
def getMetadataCalls (err meta : JSVal) : List (Settle TrackMetadata) :=
  (if truthy err then [Settle.rej err] else []) ++
  (if typeof meta ≠ "undefined" ∧ typeof meta ≠ "null" then
    match buildMetadata meta with
    | .ok r => [Settle.res r]
    | .error _ => [Settle.rej (JSVal.str "No song is currently playing")]
  else [])

/-- Promise outcome of `getMetadata`. -/
def getMetadataOutcome (err meta : JSVal) : Outcome TrackMetadata :=
  settle (getMetadataCalls err meta)

/-- Bridge callback of `getPlaylistMetadata`:
`if (error) reject(error); resolve(meta)` — no early return, so both
calls happen on error, but only the first settles. -/
def getPlaylistMetadataCalls (error meta : JSVal) : List (Settle JSVal) :=
  (if truthy error then [Settle.rej error] else []) ++ [Settle.res meta]

/-- Promise outcome of `getPlaylistMetadata`. -/
def getPlaylistMetadataOutcome (error meta : JSVal) : Outcome JSVal :=
  settle (getPlaylistMetadataCalls error meta)

/-- Bridge callback of `getPlayerState`:
`if (error) reject(error); resolve(output === 'playing')`. -/
def getPlayerStateCalls (error output : JSVal) : List (Settle Bool) :=
  (if truthy error then [Settle.rej error] else []) ++
  [Settle.res (isStr output "playing")]

/-- Promise outcome of `getPlayerState`. -/
def getPlayerStateOutcome (error output : JSVal) : Outcome Bool :=
  settle (getPlayerStateCalls error output)

/-- Shared bridge callback of `activate`, `playSong`, `playPlaylist` and
`addToPlaylist`: `error => error ? reject(error.message) : resolve()`. -/
def execErrCalls (error : JSVal) : List (Settle Unit) :=
  if truthy error then [Settle.rej (jsMessage error)] else [Settle.res ()]

/-- Promise outcome of the operations using `execErrCalls`. -/
def execErrOutcome (error : JSVal) : Outcome Unit :=
  settle (execErrCalls error)

/-- The caller-supplied selector object of `playSong`; a field that the
caller omitted reads as `undefined`. -/
structure SongOptions where
  name : JSVal
  artist : JSVal
  album : JSVal

/-- `responseName`: the name clause, or `''` when `options.name` is
undefined. -/
def responseName (o : SongOptions) : String :=
  if typeof o.name ≠ "undefined" then
    "name is \"" ++ jsToStr o.name ++ "\""
  else ""

/-- `responseArtist`: the artist clause, preceded by `' and '` when a name
clause exists, else by `' '`; `''` when `options.artist` is undefined. -/
def responseArtist (o : SongOptions) : String :=
  if typeof o.artist ≠ "undefined" then
    (if typeof o.name ≠ "undefined" then " and " else " ")
      ++ "artist is \"" ++ jsToStr o.artist ++ "\""
  else ""

/-- `responseAlbum`: the album clause, preceded by `' and '` when a name or
artist clause exists, else by `' '`; `''` when `options.album` is
undefined. -/
def responseAlbum (o : SongOptions) : String :=
  if typeof o.album ≠ "undefined" then
    (if typeof o.name ≠ "undefined" ∨ typeof o.artist ≠ "undefined"
     then " and " else " ")
      ++ "album is \"" ++ jsToStr o.album ++ "\""
  else ""

/-- The `whose` predicate interpolated by `playSong`'s template:
`` `${responseName} ${responseArtist} ${responseAlbum}` `` — the template
itself contributes one literal space between each pair of slots. -/
def playSongPredicate (o : SongOptions) : String :=
  responseName o ++ " " ++ responseArtist o ++ " " ++ responseAlbum o

/-- Synchronous part of `playSong(options)`: with at least one of the
three fields defined, submit the play command; otherwise reject with the
not-enough-info message (no bridge contact). -/
def playSong (itom : String) (o : SongOptions) : Action :=
  if typeof o.name ≠ "undefined" ∨ typeof o.artist ≠ "undefined"
     ∨ typeof o.album ≠ "undefined" then
    Action.submit ("tell application \"" ++ itom
      ++ "\" to play (first track whose " ++ playSongPredicate o ++ ")")
  else
    Action.reject ("[" ++ itom
      ++ "] [Error] Not enough info in options, requires \"name\", \"artist\", or \"album\".")

/-- Command of `playPlaylist(name)`. -/
def playPlaylistCmd (itom : String) (name : JSVal) : String :=
  "tell application \"" ++ itom ++ "\" to play playlist \""
    ++ jsToStr name ++ "\""

/-- Command of `addToPlaylist(songObject, playlist)`: exact
(name, artist, album) triple match plus the playlist name, all
interpolated verbatim. -/
def addToPlaylistCmd (itom : String) (songObject : TrackMetadata)
    (playlist : JSVal) : String :=
  "tell application \"" ++ itom
    ++ "\" to add (get the location of the first track whose name is \""
    ++ jsToStr songObject.name ++ "\" and artist is \""
    ++ jsToStr songObject.artist ++ "\" and album is \""
    ++ jsToStr songObject.album ++ "\") to playlist \""
    ++ jsToStr playlist ++ "\""

/-- Characters of a string strictly after the first occurrence of the
marker sequence, or `none` when the marker does not occur. -/
def dropThroughMarker (marker : List Char) : List Char → Option (List Char)
  | [] => none
  | c :: rest =>
      if marker.isPrefixOf (c :: rest) then some (List.drop marker.length (c :: rest))
      else dropThroughMarker marker rest

/-- The quoted literal as an AppleScript parser would read it right after
the given marker: the characters up to the next `"`. -/
def quotedAfter (marker s : String) : Option String :=
  (dropThroughMarker marker.toList s.toList).map
    (fun l => String.mk (l.takeWhile (fun c => c ≠ '"')))

/-- The quoted literal following the first `"` of a clause. -/
def firstQuoted (s : String) : String :=
  String.mk ((((s.toList).dropWhile (fun c => c ≠ '"')).drop 1).takeWhile
    (fun c => c ≠ '"'))

/-- C1 (amended): every settle call after the first is ignored, so every
operation settles at most once; the fire-and-acknowledge operations,
`get`'s submission callback, `getPlaylistMetadata`, `getPlayerState` and
the `activate`/`playSong`/`playPlaylist`/`addToPlaylist` callback always
settle; but `getMetadata` settles exactly when the bridge reported a
truthy error or the reply is not `undefined` — with a falsy error and an
`undefined` reply its promise never settles. -/
theorem operations_settle_at_most_once :
    (∀ (α : Type) (c : Settle α) (rest : List (Settle α)),
      settle (c :: rest) = settle [c]) ∧
    (fireAckOutcome = Outcome.resolved ()) ∧
    (∀ error output : JSVal, getExecOutcome error output = Outcome.resolved output) ∧
    (∀ error meta : JSVal, isSettled (getPlaylistMetadataOutcome error meta) = true) ∧
    (∀ error output : JSVal, isSettled (getPlayerStateOutcome error output) = true) ∧
    (∀ error : JSVal, isSettled (execErrOutcome error) = true) ∧
    (∀ err meta : JSVal,
      isSettled (getMetadataOutcome err meta) = (truthy err || !(isUndef meta))) := by
  refine ⟨?_, rfl, ?_, ?_, ?_, ?_, ?_⟩
  · intro α c rest; cases c <;> rfl
  · intro error output; rfl
  · intro error meta
    cases h : truthy error <;>
      simp [getPlaylistMetadataOutcome, getPlaylistMetadataCalls, settle, isSettled, h]
  · intro error output
    cases h : truthy error <;>
      simp [getPlayerStateOutcome, getPlayerStateCalls, settle, isSettled, h]
  · intro error
    cases h : truthy error <;>
      simp [execErrOutcome, execErrCalls, settle, isSettled, h]
  · intro err meta
    cases h : truthy err <;> cases meta <;>
      simp only [getMetadataOutcome, getMetadataCalls, h] <;> rfl

/-- C1 (counterexample): `getMetadata` invoked back with a `null` error and
an `undefined` reply performs no settle call, so its promise is pending
forever — the operation fails to settle, contradicting the claim that
every operation settles exactly once. -/
theorem getMetadata_pending_counterexample :
    getMetadataCalls JSVal.null JSVal.undef = [] ∧
    getMetadataOutcome JSVal.null JSVal.undef = Outcome.pending ∧
    isSettled (getMetadataOutcome JSVal.null JSVal.undef) = false :=
  ⟨rfl, rfl, rfl⟩

/-- C2 (code evaluation at the failing input): with a falsy bridge error,
an `undefined` reply leaves the `getMetadata` promise pending (never
rejected), and an empty-array reply resolves a record of eleven
`undefined` fields (never rejected) — in neither case does the promise
reject with `'No song is currently playing'`. -/
theorem getMetadata_missing_reply_evaluation :
    getMetadataOutcome JSVal.null JSVal.undef = Outcome.pending ∧
    isRejection (getMetadataOutcome JSVal.null JSVal.undef) = false ∧
    getMetadataOutcome JSVal.null (JSVal.arr []) =
      Outcome.resolved ⟨.undef, .undef, .undef, .undef, .undef, .undef, .undef,
        .undef, .undef, .undef, .undef⟩ ∧
    isRejection (getMetadataOutcome JSVal.null (JSVal.arr [])) = false :=
  ⟨rfl, rfl, rfl, rfl⟩

/-- C3 (amended): with only `name` present the submitted predicate is
`name is "A"` followed by two trailing spaces (the template's separators
for the two absent slots); with `name` and `album` the two clauses are
joined by `"   and "` (three spaces: two template separators plus the
clause's own leading `" and "`); with all three fields each `" and "`
joint carries one extra template space.  Clause contents and order match
the claim; only the claimed absence of space artifacts fails. -/
theorem playSong_predicate_exact_shape :
    ∀ nm ar al : String,
    playSongPredicate ⟨.str nm, .undef, .undef⟩ = "name is \"" ++ nm ++ "\"  " ∧
    playSongPredicate ⟨.str nm, .undef, .str al⟩ =
      "name is \"" ++ nm ++ "\"   and album is \"" ++ al ++ "\"" ∧
    playSongPredicate ⟨.str nm, .str ar, .str al⟩ =
      "name is \"" ++ nm ++ "\"  and artist is \"" ++ ar
        ++ "\"  and album is \"" ++ al ++ "\"" ∧
    responseName ⟨.str nm, .undef, .str al⟩ = "name is \"" ++ nm ++ "\"" ∧
    responseArtist ⟨.str nm, .undef, .str al⟩ = "" ∧
    responseAlbum ⟨.str nm, .undef, .str al⟩ = " and album is \"" ++ al ++ "\"" := by
  intro nm ar al
  refine ⟨?_, ?_, ?_, ?_, ?_, ?_⟩ <;>
    (simp [playSongPredicate, responseName, responseArtist, responseAlbum, typeof,
      jsToStr, String.append_assoc]) <;> try rfl

/-- C3 (counterexample): `playSong({name:"A"})` builds the predicate
`name is "A"  ` — not exactly `name is "A"` — and
`playSong({name:"A", album:"B"})` builds
`name is "A"   and album is "B"` — not exactly
`name is "A" and album is "B"`; the full submitted command carries the
same extra spaces. -/
theorem playSong_predicate_spacing_counterexample :
    playSongPredicate ⟨.str "A", .undef, .undef⟩ = "name is \"A\"  " ∧
    ("name is \"A\"  " == "name is \"A\"") = false ∧
    playSongPredicate ⟨.str "A", .undef, .str "B"⟩ =
      "name is \"A\"   and album is \"B\"" ∧
    ("name is \"A\"   and album is \"B\"" == "name is \"A\" and album is \"B\"") = false ∧
    playSong "Music" ⟨.str "A", .undef, .str "B"⟩ = Action.submit
      "tell application \"Music\" to play (first track whose name is \"A\"   and album is \"B\")" := by
  refine ⟨?_, rfl, ?_, rfl, ?_⟩ <;>
    (simp [playSong, playSongPredicate, responseName, responseArtist, responseAlbum,
      typeof, jsToStr]) <;> try rfl

/-- C4 (amended): with a falsy bridge error, `getMetadata` rejects with
`'No song is currently playing'` exactly when indexing the reply throws,
i.e. when the reply is `null`; an array reply of any length — matching
the schema or not — resolves a record filled positionally with missing
slots as `undefined`; an `undefined` reply never settles. -/
theorem getMetadata_error_mapping_exact :
    ∀ err : JSVal, truthy err = false →
    (getMetadataOutcome err JSVal.null =
      Outcome.rejected (JSVal.str "No song is currently playing")) ∧
    (getMetadataOutcome err JSVal.undef = Outcome.pending) ∧
    (∀ xs : List JSVal, getMetadataOutcome err (JSVal.arr xs) =
      Outcome.resolved ⟨xs.getD 0 .undef, xs.getD 1 .undef, xs.getD 2 .undef,
        xs.getD 3 .undef, xs.getD 4 .undef, xs.getD 5 .undef, xs.getD 6 .undef,
        xs.getD 7 .undef, xs.getD 8 .undef, xs.getD 9 .undef, xs.getD 10 .undef⟩) ∧
    (∀ meta : JSVal, isRejection (getMetadataOutcome err meta) = isNull meta) := by
  intro err h
  refine ⟨?_, ?_, ?_, ?_⟩
  · simp only [getMetadataOutcome, getMetadataCalls, h]; rfl
  · simp only [getMetadataOutcome, getMetadataCalls, h]; rfl
  · intro xs
    simp only [getMetadataOutcome, getMetadataCalls, h]; rfl
  · intro meta
    cases meta <;> simp only [getMetadataOutcome, getMetadataCalls, h] <;> rfl

/-- C4 (witness): the amended mapping at concrete inputs: a `null` reply
rejects with the no-active-track message. -/
theorem getMetadata_error_mapping_exact_witness :
    getMetadataOutcome JSVal.null JSVal.null =
      Outcome.rejected (JSVal.str "No song is currently playing") :=
  (getMetadata_error_mapping_exact JSVal.null rfl).1

/-- C4 (counterexample): a two-element reply — a shape mismatching the
11-slot schema — makes `getMetadata` resolve with a positionally
corrupted record rather than reject with the no-active-track error. -/
theorem getMetadata_short_reply_resolves :
    getMetadataOutcome JSVal.null (JSVal.arr [JSVal.str "x", JSVal.str "y"]) =
      Outcome.resolved ⟨.str "x", .str "y", .undef, .undef, .undef, .undef,
        .undef, .undef, .undef, .undef, .undef⟩ ∧
    isRejection (getMetadataOutcome JSVal.null (JSVal.arr [JSVal.str "x", JSVal.str "y"]))
      = false :=
  ⟨rfl, rfl⟩

/-- C5: whenever the requested field is not strictly equal to any of the
three recognized string literals — unrecognized strings and non-string
values alike — `get` rejects with the invalid-input message instead of
submitting a command to the bridge. -/
theorem get_rejects_invalid_field :
    ∀ (itom : String) (name : JSVal),
    isStr name "name" = false → isStr name "artist" = false →
    isStr name "album" = false →
    get itom name = Action.reject ("[" ++ itom ++ "] [Error] Invalid input.") := by
  intro itom name h1 h2 h3
  simp [get, h1, h2, h3]

/-- C5 (witness): `get('year')` — a string outside the recognized set —
rejects with the invalid-input message. -/
theorem get_rejects_invalid_field_witness :
    get "Music" (JSVal.str "year") = Action.reject "[Music] [Error] Invalid input." :=
  get_rejects_invalid_field "Music" (JSVal.str "year") rfl rfl rfl

/-- C6 (amended): `get` submits to the bridge exactly when the field is
one of the three recognized string literals; the additional
`typeof name === 'string'` test is redundant, and an
unrecognized-but-string field name is rejected, not submitted. -/
theorem get_submit_iff_recognized :
    ∀ (itom : String) (name : JSVal),
    isSubmit (get itom name) =
      (isStr name "name" || isStr name "artist" || isStr name "album") := by
  intro itom name
  cases name
  case str s =>
    by_cases h1 : s = "name" <;> by_cases h2 : s = "artist" <;>
      by_cases h3 : s = "album" <;>
      simp [get, isStr, typeof, isSubmit, h1, h2, h3]
  all_goals simp [get, isStr, typeof, isSubmit]

/-- C6 (counterexample): `'year'` is of string type yet `get('year')` is
rejected with the invalid-input message, not silently submitted. -/
theorem get_string_field_rejected_counterexample :
    typeof (JSVal.str "year") = "string" ∧
    get "Music" (JSVal.str "year") = Action.reject "[Music] [Error] Invalid input." ∧
    isSubmit (get "Music" (JSVal.str "year")) = false :=
  ⟨rfl, rfl, rfl⟩

/-- C7: with a falsy bridge error, an 11-element reply makes `getMetadata`
resolve with the record whose fields name, artist, album, year,
albumArtist, bpm, composer, genre, length, progress, trackNumber are the
reply's values at positions 0 through 10, each taken unchanged. -/
theorem getMetadata_eleven_slots_positional :
    ∀ err : JSVal, truthy err = false →
    ∀ v0 v1 v2 v3 v4 v5 v6 v7 v8 v9 v10 : JSVal,
    getMetadataOutcome err (JSVal.arr [v0, v1, v2, v3, v4, v5, v6, v7, v8, v9, v10]) =
      Outcome.resolved ⟨v0, v1, v2, v3, v4, v5, v6, v7, v8, v9, v10⟩ := by
  intro err h v0 v1 v2 v3 v4 v5 v6 v7 v8 v9 v10
  simp only [getMetadataOutcome, getMetadataCalls, h]; rfl

/-- C7 (witness): a concrete 11-element reply resolves positionally. -/
theorem getMetadata_eleven_slots_positional_witness :
    getMetadataOutcome JSVal.null
      (JSVal.arr [.str "n", .str "ar", .str "al", .num 1999, .str "aa", .num 120,
        .str "c", .str "g", .num 300, .num 12, .num 7]) =
      Outcome.resolved ⟨.str "n", .str "ar", .str "al", .num 1999, .str "aa",
        .num 120, .str "c", .str "g", .num 300, .num 12, .num 7⟩ :=
  getMetadata_eleven_slots_positional JSVal.null rfl (.str "n") (.str "ar")
    (.str "al") (.num 1999) (.str "aa") (.num 120) (.str "c") (.str "g")
    (.num 300) (.num 12) (.num 7)

/-- C8: a selector with all three fields undefined makes `playSong` reject
with the not-enough-info message; no command is submitted. -/
theorem playSong_empty_selector_rejects :
    ∀ (itom : String) (o : SongOptions),
    o.name = JSVal.undef → o.artist = JSVal.undef → o.album = JSVal.undef →
    playSong itom o = Action.reject ("[" ++ itom
      ++ "] [Error] Not enough info in options, requires \"name\", \"artist\", or \"album\".") := by
  intro itom o h1 h2 h3
  simp [playSong, h1, h2, h3, typeof]

/-- C8 (witness): `playSong({})` rejects with the not-enough-info message. -/
theorem playSong_empty_selector_rejects_witness :
    playSong "Music" ⟨JSVal.undef, JSVal.undef, JSVal.undef⟩ = Action.reject
      "[Music] [Error] Not enough info in options, requires \"name\", \"artist\", or \"album\"." :=
  playSong_empty_selector_rejects "Music" ⟨JSVal.undef, JSVal.undef, JSVal.undef⟩
    rfl rfl rfl

/-- C9: for a recognized field name, `get` submits a command, and its
bridge callback `(error, output) => resolve(output, error)` resolves with
`output` whatever the error is — a JS `resolve` ignores its second
argument — so a bridge-level failure still resolves the promise
(typically with an undefined output) and never rejects it. -/
theorem get_valid_field_resolves_despite_error :
    ∀ (itom : String) (name : JSVal),
    (isStr name "name" || isStr name "artist" || isStr name "album") = true →
    isSubmit (get itom name) = true ∧
    ∀ error output : JSVal, getExecOutcome error output = Outcome.resolved output := by
  intro itom name h
  constructor
  · cases name <;> simp_all [get, isStr, typeof, isSubmit]
  · intro error output; rfl

/-- C9 (witness): `get('name')` submits, and a bridge error together with
an undefined output still resolves the promise with that undefined
output. -/
theorem get_valid_field_resolves_despite_error_witness :
    isSubmit (get "Music" (JSVal.str "name")) = true ∧
    getExecOutcome (JSVal.str "bridge failure") JSVal.undef =
      Outcome.resolved JSVal.undef :=
  ⟨(get_valid_field_resolves_despite_error "Music" (JSVal.str "name") rfl).1,
   (get_valid_field_resolves_despite_error "Music" (JSVal.str "name") rfl).2
     (JSVal.str "bridge failure") JSVal.undef⟩

/-- C10: interpolated values are not escaped: a song name containing a
double quote produces a `playSong` clause whose quoted literal, as a
parser reads it, stops at the embedded quote and is not the whole value;
the same happens to the track triple and the playlist name interpolated
by `addToPlaylist`. -/
theorem interpolation_breaks_quoting :
    ("A\" and artist is \"B".toList.contains '"') = true ∧
    responseName ⟨.str "A\" and artist is \"B", .undef, .undef⟩ =
      "name is \"A\" and artist is \"B\"" ∧
    firstQuoted (responseName ⟨.str "A\" and artist is \"B", .undef, .undef⟩) = "A" ∧
    ("A" == "A\" and artist is \"B") = false ∧
    quotedAfter "whose name is \""
      (addToPlaylistCmd "Music" ⟨.str "A\"B", .str "x", .str "y", .undef, .undef,
        .undef, .undef, .undef, .undef, .undef, .undef⟩ (.str "pl")) = some "A" ∧
    ("A" == "A\"B") = false ∧
    quotedAfter "to playlist \""
      (addToPlaylistCmd "Music" ⟨.str "a", .str "x", .str "y", .undef, .undef,
        .undef, .undef, .undef, .undef, .undef, .undef⟩ (.str "p\"q")) = some "p" ∧
    ("p" == "p\"q") = false := by
  refine ⟨rfl, ?_, ?_, rfl, ?_, rfl, ?_, rfl⟩ <;>
    (simp only [responseName, addToPlaylistCmd, typeof, jsToStr]) <;> try rfl

end Itunes
